import Mathlib

/-!
Shallow embedding of the astrotools property engine (src/properties.rs) and
the serial-device constructor (src/lib.rs), with theorems settling the
behavioural claims about the property model.

Rust `&mut self` methods returning `Result<(), PropertyError>` are embedded as
pure functions `State → T → Except PropertyError Unit × State`: the first
component is the returned result, the second the state of the receiver after
the call (unchanged whenever the Rust code returns early with `?`).
-/

namespace Astro

/-- Errors returned by property operations (`PropertyError` in src/properties.rs). -/
inductive PropertyError where
  | CannotUpdateReadOnlyProp
  | InvalidValue
deriving DecidableEq, Repr

/-- Access mode of a property (`Permission` in src/properties.rs). -/
inductive Permission where
  | ReadOnly
  | ReadWrite
deriving DecidableEq, Repr

/-- Inclusive bounds attached to a `RangeProperty` (`Range<T>` in src/properties.rs). -/
structure Range (T : Type) where
  min : T
  max : T
deriving DecidableEq, Repr

/-- `Range::new(min, max)`. -/
def Range.new {T : Type} (min max : T) : Range T :=
  { min := min, max := max }

/-- `RangeProperty<T>`: value, permission and an inclusive range (src/properties.rs). -/
structure RangeProperty (T : Type) where
  value : T
  permission : Permission
  range : Range T
deriving DecidableEq, Repr

/-- Plain `Property<T>`: value and permission only (src/properties.rs). -/
structure Property (T : Type) where
  value : T
  permission : Permission
deriving DecidableEq, Repr

/-- `ChoiceProperty<T>`: value, permission and the list of allowed values
(src/properties.rs). -/
structure ChoiceProperty (T : Type) where
  value : T
  permission : Permission
  choices : List T
deriving DecidableEq, Repr

/-- `Property::new(value, permission)`. -/
def Property.new {T : Type} (value : T) (permission : Permission) : Property T :=
  { value := value, permission := permission }

/-- `RangeProperty::new(value, permission, min, max)`. -/
def RangeProperty.new {T : Type} (value : T) (permission : Permission) (min max : T) :
    RangeProperty T :=
  { value := value, permission := permission, range := Range.new min max }

/-- `ChoiceProperty::new(value, permission, choices)`. Note: no validation of
`value` against `choices` is performed. -/
def ChoiceProperty.new {T : Type} (value : T) (permission : Permission) (choices : List T) :
    ChoiceProperty T :=
  { value := value, permission := permission, choices := choices }

/-- `<Property<T> as Prop<T>>::update_allowed`: fails iff the permission is `ReadOnly`. -/
def Property.update_allowed {T : Type} (p : Property T) : Except PropertyError Unit :=
  match p.permission with
  | Permission.ReadOnly => Except.error PropertyError.CannotUpdateReadOnlyProp
  | _ => Except.ok ()

/-- `<Property<T> as Prop<T>>::update`: `self.update_allowed()?; self.value = value; Ok(())`. -/
def Property.update {T : Type} (p : Property T) (value : T) :
    Except PropertyError Unit × Property T :=
  match p.update_allowed with
  | Except.error e => (Except.error e, p)
  | Except.ok _ => (Except.ok (), { p with value := value })

/-- `<Property<T> as Prop<T>>::update_int`: `self.value = value; Ok(())` — no checks. -/
def Property.update_int {T : Type} (p : Property T) (value : T) :
    Except PropertyError Unit × Property T :=
  (Except.ok (), { p with value := value })

/-- `<Property<T> as Prop<T>>::validate`: always `Ok(())`. -/
def Property.validate {T : Type} (_p : Property T) (_val : T) : Except PropertyError Unit :=
  Except.ok ()

/-- `<RangeProperty<T> as Prop<T>>::update_allowed`: fails iff permission is `ReadOnly`. -/
def RangeProperty.update_allowed {T : Type} (p : RangeProperty T) : Except PropertyError Unit :=
  match p.permission with
  | Permission.ReadOnly => Except.error PropertyError.CannotUpdateReadOnlyProp
  | _ => Except.ok ()

/-- `<RangeProperty<T> as Prop<T>>::update`:
`self.update_allowed()?; self.value = value; Ok(())`. The range is not consulted. -/
def RangeProperty.update {T : Type} (p : RangeProperty T) (value : T) :
    Except PropertyError Unit × RangeProperty T :=
  match p.update_allowed with
  | Except.error e => (Except.error e, p)
  | Except.ok _ => (Except.ok (), { p with value := value })

/-- `<RangeProperty<T> as Prop<T>>::update_int`: `self.value = value; Ok(())` — no checks. -/
def RangeProperty.update_int {T : Type} (p : RangeProperty T) (value : T) :
    Except PropertyError Unit × RangeProperty T :=
  (Except.ok (), { p with value := value })

/-- `<RangeProperty<T> as Prop<T>>::validate`: always `Ok(())` — the bounds are ignored. -/
def RangeProperty.validate {T : Type} (_p : RangeProperty T) (_val : T) :
    Except PropertyError Unit :=
  Except.ok ()

/-- `<ChoiceProperty<T> as Prop<T>>::update_allowed`: fails iff permission is `ReadOnly`. -/
def ChoiceProperty.update_allowed {T : Type} (p : ChoiceProperty T) :
    Except PropertyError Unit :=
  match p.permission with
  | Permission.ReadOnly => Except.error PropertyError.CannotUpdateReadOnlyProp
  | _ => Except.ok ()

/-- `<ChoiceProperty<T> as Prop<T>>::validate`:
`if !self.choices.contains(val) { return Err(InvalidValue); } Ok(())`. -/
def ChoiceProperty.validate {T : Type} [DecidableEq T] (p : ChoiceProperty T) (val : T) :
    Except PropertyError Unit :=
  if ¬ (val ∈ p.choices) then Except.error PropertyError.InvalidValue
  else Except.ok ()

/-- `<ChoiceProperty<T> as Prop<T>>::update`:
`self.update_allowed()?; self.validate(&value)?; self.value = value; Ok(())`. -/
def ChoiceProperty.update {T : Type} [DecidableEq T] (p : ChoiceProperty T) (value : T) :
    Except PropertyError Unit × ChoiceProperty T :=
  match p.update_allowed with
  | Except.error e => (Except.error e, p)
  | Except.ok _ =>
    match p.validate value with
    | Except.error e => (Except.error e, p)
    | Except.ok _ => (Except.ok (), { p with value := value })

/-- `<ChoiceProperty<T> as Prop<T>>::update_int`:
`self.validate(&value)?; self.value = value; Ok(())` — permission is skipped. -/
def ChoiceProperty.update_int {T : Type} [DecidableEq T] (p : ChoiceProperty T) (value : T) :
    Except PropertyError Unit × ChoiceProperty T :=
  match p.validate value with
  | Except.error e => (Except.error e, p)
  | Except.ok _ => (Except.ok (), { p with value := value })

/-- JSON rendering of a `Permission`: serde derives `Serialize` for the C-like enum,
so `serde_json` renders a variant as its symbolic name in quotes
(pinned by the tests in the `serialization_tests` module of src/properties.rs). -/
def Permission.toJson : Permission → String
  | Permission.ReadOnly => "\"ReadOnly\""
  | Permission.ReadWrite => "\"ReadWrite\""

/-- JSON rendering of an integer value, as `serde_json` prints an `i32`. -/
def intToJson (n : Int) : String := toString n

/-- JSON rendering of a plain `Property<i32>` under the derived `Serialize` impl:
an object with the fields in declaration order (`value`, then `permission`). -/
def Property.toJson (p : Property Int) : String :=
  "\x7b\"value\":" ++ intToJson p.value ++ ",\"permission\":" ++ p.permission.toJson ++ "\x7d"

/-- JSON rendering of a `Range<i32>` under the derived `Serialize` impl:
an object with fields `min`, then `max`. -/
def Range.toJson (r : Range Int) : String :=
  "\x7b\"min\":" ++ intToJson r.min ++ ",\"max\":" ++ intToJson r.max ++ "\x7d"

/-- JSON rendering of a `RangeProperty<i32>` under the derived `Serialize` impl:
fields `value`, `permission`, `range` in declaration order, `range` nested. -/
def RangeProperty.toJson (p : RangeProperty Int) : String :=
  "\x7b\"value\":" ++ intToJson p.value ++ ",\"permission\":" ++ p.permission.toJson ++
    ",\"range\":" ++ p.range.toJson ++ "\x7d"

/-- An opaque device identifier (`uuid::Uuid`, produced by `Uuid::new_v4()`). -/
structure Uuid where
  v : Nat
deriving DecidableEq, Repr

/-- An opened native serial port, the value produced by a successful
`serialport::new(address, baud).timeout(..).open_native()` call (external
library; only its success or failure matters to the constructor). -/
structure NativePort where
  address : String
  baud : Nat
  timeoutMs : Nat
deriving DecidableEq, Repr

/-- A device property of the external `lightspeed_astro::props` crate, with the
fields the code of src/lib.rs reads (`name`, `value`, `kind`, `permission`). -/
structure LsProperty where
  name : String
  value : String
  kind : String
  permission : Nat
deriving DecidableEq, Repr

/-- The `CcdDevice` state populated by the `AstroSerialDevice::new` implementation
in src/lib.rs (`test_utils::factory`): id, name, properties, address, baud, port. -/
structure CcdDevice where
  id : Uuid
  name : String
  properties : List LsProperty
  address : String
  baud : Nat
  port : NativePort
deriving DecidableEq, Repr

/-- The `AstroSerialDevice::new` implementation for `CcdDevice` in src/lib.rs:
`if let Ok(p) = port.open_native() { Some(Self { .. }) } else { None }`.
The outcome of the external `open_native()` call and the fresh uuid from
`Uuid::new_v4()` are passed as explicit parameters (`openResult`, `freshId`);
an unreachable or invalid address is the case `openResult = none`. -/
def CcdDevice.new (name address : String) (baud : Nat) (_timeoutMs : Nat)
    (freshId : Uuid) (openResult : Option NativePort) : Option CcdDevice :=
  match openResult with
  | some p =>
    some { id := freshId, name := name, properties := [], address := address,
           baud := baud, port := p }
  | none => none

/-- Written from the spec's words for the refinement claim about `update`
(§4.1): the client-facing update "composes `update_allowed` then `validate`;
only on both succeeding does it commit `value`. Otherwise the property is left
unchanged and the first failing check's error is returned (permission checked
before validity)". `perm` and `valid` are the results of the two checks,
`committed` the state with the value written, `orig` the unchanged state. -/
def specComposedUpdate {S : Type} (perm valid : Except PropertyError Unit)
    (committed orig : S) : Except PropertyError Unit × S :=
  match perm with
  | Except.error e => (Except.error e, orig)
  | Except.ok _ =>
    match valid with
    | Except.error e => (Except.error e, orig)
    | Except.ok _ => (Except.ok (), committed)

/-- Claim C1 counterexample: on the concrete ReadWrite range property with
value 5 and bounds [0, 10], `update(min - 1) = update(-1)` does not fail with
`InvalidValue` as the claim demands: it succeeds and commits -1 even though
-1 < min = 0, so the invariant min ≤ value ≤ max is violated after a
successful update. -/
theorem c1_range_bounds_not_checked_counterexample :
    RangeProperty.update (RangeProperty.new (5 : Int) Permission.ReadWrite 0 10) (-1)
      = (Except.ok (), RangeProperty.new (-1 : Int) Permission.ReadWrite 0 10)
    ∧ ((-1 : Int) < 0) := by
  exact ⟨rfl, by decide⟩

/-- Claim C1 (amended): for every RangeProperty, `update(v)` succeeds iff the
permission is ReadWrite; the bounds [min, max] are never consulted: when
ReadWrite the update commits v even when v < min or v > max, and when ReadOnly
it fails with `CannotUpdateReadOnlyProp` and leaves the property unchanged, so
the invariant min ≤ value ≤ max is not enforced by `update`. -/
theorem c1_range_update_checks_only_permission {T : Type} (p : RangeProperty T) (v : T) :
    p.update v
      = (match p.permission with
         | Permission.ReadOnly => (Except.error PropertyError.CannotUpdateReadOnlyProp, p)
         | Permission.ReadWrite => (Except.ok (), { p with value := v })) := by
  obtain ⟨x, perm, r⟩ := p
  cases perm <;> rfl

/-- Claim C2 counterexample: `ChoiceProperty::new(5, ReadWrite, vec![0,1,2,3])`
stores value 5 although 5 is not in the choices list (the property's own
`contains` check returns false on its stored value, and its own `validate`
rejects it), so the invariant value ∈ choices does not hold after construction
via `new`. -/
theorem c2_choice_new_unvalidated_counterexample :
    (ChoiceProperty.new (5 : Int) Permission.ReadWrite [0, 1, 2, 3]).value = 5
    ∧ (ChoiceProperty.new (5 : Int) Permission.ReadWrite [0, 1, 2, 3]).choices.contains
        (ChoiceProperty.new (5 : Int) Permission.ReadWrite [0, 1, 2, 3]).value = false
    ∧ (ChoiceProperty.new (5 : Int) Permission.ReadWrite [0, 1, 2, 3]).validate
        (ChoiceProperty.new (5 : Int) Permission.ReadWrite [0, 1, 2, 3]).value
        = Except.error PropertyError.InvalidValue := by
  exact ⟨rfl, by decide, rfl⟩

/-- Claim C2 (amended): for every ChoiceProperty, every call to `update` or
`update_int` either leaves the property exactly unchanged or leaves the stored
value a member of the (unchanged) choices list; in particular every successful
`update` or `update_int` establishes value ∈ choices. Construction via `new`,
however, performs no validation and need not establish the invariant. -/
theorem c2_choice_membership_after_updates {T : Type} [DecidableEq T]
    (p : ChoiceProperty T) (v : T) :
    ((p.update v).2.value ∈ (p.update v).2.choices ∨ (p.update v).2 = p)
    ∧ ((p.update_int v).2.value ∈ (p.update_int v).2.choices ∨ (p.update_int v).2 = p) := by
  obtain ⟨x, perm, cs⟩ := p
  by_cases hv : v ∈ cs
  · cases perm
    · exact ⟨Or.inr rfl,
        Or.inl (by simp [ChoiceProperty.update_int, ChoiceProperty.validate, hv])⟩
    · constructor
      · exact Or.inl (by
          simp [ChoiceProperty.update, ChoiceProperty.update_allowed,
            ChoiceProperty.validate, hv])
      · exact Or.inl (by simp [ChoiceProperty.update_int, ChoiceProperty.validate, hv])
  · cases perm
    · exact ⟨Or.inr rfl,
        Or.inr (by simp [ChoiceProperty.update_int, ChoiceProperty.validate, hv])⟩
    · constructor
      · exact Or.inr (by
          simp [ChoiceProperty.update, ChoiceProperty.update_allowed,
            ChoiceProperty.validate, hv])
      · exact Or.inr (by simp [ChoiceProperty.update_int, ChoiceProperty.validate, hv])

/-- Claim C3 counterexample: on the concrete RangeProperty with value 5 and
bounds [0, 10], the internal sync path `update_int(100)` does not fail with
`InvalidValue` although 100 > max = 10: it succeeds and caches 100, so the
cached value leaves the declared range domain. -/
theorem c3_range_update_int_unchecked_counterexample :
    RangeProperty.update_int (RangeProperty.new (5 : Int) Permission.ReadOnly 0 10) 100
      = (Except.ok (), RangeProperty.new (100 : Int) Permission.ReadOnly 0 10)
    ∧ ((10 : Int) < 100) := by
  exact ⟨rfl, by decide⟩

/-- Claim C3 (amended): for every variant, `update_int(v)` never fails with
`CannotUpdateReadOnlyProp` (the permission check is skipped). Plain and Range
properties commit v unconditionally — `update_int` never fails at all on them,
so a Range cache CAN leave its declared bounds. Only ChoiceProperty applies
`validate` on this path: its `update_int(v)` fails (with `InvalidValue`) iff
v is not in the choices list. -/
theorem c3_update_int_skips_permission_validates_choice_only {T : Type} [DecidableEq T] :
    (∀ (p : Property T) (v : T), p.update_int v = (Except.ok (), { p with value := v }))
    ∧ (∀ (p : RangeProperty T) (v : T),
        p.update_int v = (Except.ok (), { p with value := v }))
    ∧ (∀ (p : ChoiceProperty T) (v : T),
        (p.update_int v).1 ≠ Except.error PropertyError.CannotUpdateReadOnlyProp
        ∧ ((p.update_int v).1 = Except.error PropertyError.InvalidValue ↔ v ∉ p.choices)
        ∧ (v ∈ p.choices → p.update_int v = (Except.ok (), { p with value := v }))) := by
  refine ⟨fun p v => rfl, fun p v => rfl, fun p v => ?_⟩
  obtain ⟨x, perm, cs⟩ := p
  by_cases hv : v ∈ cs <;>
    simp [ChoiceProperty.update_int, ChoiceProperty.validate, hv]

/-- Claim C3 witness: concrete instances of the amended statement — a ReadOnly
plain property absorbs `update_int(7)`, and a ReadOnly choice property rejects
`update_int(5)` with `InvalidValue` when 5 is not among its choices. -/
theorem c3_update_int_witness :
    Property.update_int (Property.new (0 : Int) Permission.ReadOnly) 7
      = (Except.ok (), Property.new (7 : Int) Permission.ReadOnly)
    ∧ (ChoiceProperty.update_int (ChoiceProperty.new (0 : Int) Permission.ReadOnly [0, 1]) 5).1
      = Except.error PropertyError.InvalidValue := by
  constructor
  · exact (c3_update_int_skips_permission_validates_choice_only (T := Int)).1
      (Property.new 0 Permission.ReadOnly) 7
  · exact ((c3_update_int_skips_permission_validates_choice_only (T := Int)).2.2
      (ChoiceProperty.new 0 Permission.ReadOnly [0, 1]) 5).2.1.mpr (by decide)

/-- Claim C4: for every variant and every candidate v, `update(v)` behaves
exactly as the composition `update_allowed` then `validate(v)` then commit:
it commits v only when both checks succeed; otherwise the property is left
unchanged and the error of the first failing check is returned, with the
permission failure taking precedence over the validity failure. (For Plain and
Range the code inlines this because their `validate` always succeeds; for
Choice the code is literally this composition.) -/
theorem c4_update_is_composed_of_checks {T : Type} [DecidableEq T] :
    (∀ (p : Property T) (v : T),
      p.update v = specComposedUpdate p.update_allowed (p.validate v) { p with value := v } p)
    ∧ (∀ (p : RangeProperty T) (v : T),
      p.update v = specComposedUpdate p.update_allowed (p.validate v) { p with value := v } p)
    ∧ (∀ (p : ChoiceProperty T) (v : T),
      p.update v
        = specComposedUpdate p.update_allowed (p.validate v) { p with value := v } p) := by
  refine ⟨fun p v => ?_, fun p v => ?_, fun p v => ?_⟩
  · obtain ⟨x, perm⟩ := p
    cases perm <;> rfl
  · obtain ⟨x, perm, r⟩ := p
    cases perm <;> rfl
  · obtain ⟨x, perm, cs⟩ := p
    cases perm
    · rfl
    · by_cases hv : v ∈ cs <;>
        simp [ChoiceProperty.update, ChoiceProperty.update_allowed,
          ChoiceProperty.validate, specComposedUpdate, hv]

/-- Claim C5: a property of any variant constructed with ReadOnly permission
rejects every client `update(v)` with `CannotUpdateReadOnlyProp` and is left
exactly unchanged by the call — a ReadOnly property's value never changes
through the client-facing `update` path. -/
theorem c5_readonly_update_always_rejected {T : Type} [DecidableEq T] :
    (∀ (x v : T),
      (Property.mk x Permission.ReadOnly).update v
        = (Except.error PropertyError.CannotUpdateReadOnlyProp,
           Property.mk x Permission.ReadOnly))
    ∧ (∀ (x v : T) (r : Range T),
      (RangeProperty.mk x Permission.ReadOnly r).update v
        = (Except.error PropertyError.CannotUpdateReadOnlyProp,
           RangeProperty.mk x Permission.ReadOnly r))
    ∧ (∀ (x v : T) (cs : List T),
      (ChoiceProperty.mk x Permission.ReadOnly cs).update v
        = (Except.error PropertyError.CannotUpdateReadOnlyProp,
           ChoiceProperty.mk x Permission.ReadOnly cs)) :=
  ⟨fun _ _ => rfl, fun _ _ _ => rfl, fun _ _ _ => rfl⟩

/-- Claim C6: for every variant, if `update(v)` succeeds then running
`update(v)` again from the resulting state succeeds as well and returns the
very same result and final state — `update` is idempotent for a fixed valid
value. -/
theorem c6_update_idempotent {T : Type} [DecidableEq T] :
    (∀ (p : Property T) (v : T), (p.update v).1 = Except.ok () →
      ((p.update v).2).update v = p.update v)
    ∧ (∀ (p : RangeProperty T) (v : T), (p.update v).1 = Except.ok () →
      ((p.update v).2).update v = p.update v)
    ∧ (∀ (p : ChoiceProperty T) (v : T), (p.update v).1 = Except.ok () →
      ((p.update v).2).update v = p.update v) := by
  refine ⟨fun p v h => ?_, fun p v h => ?_, fun p v h => ?_⟩
  · obtain ⟨x, perm⟩ := p
    cases perm
    · exact absurd h (by simp [Property.update, Property.update_allowed])
    · rfl
  · obtain ⟨x, perm, r⟩ := p
    cases perm
    · exact absurd h (by simp [RangeProperty.update, RangeProperty.update_allowed])
    · rfl
  · obtain ⟨x, perm, cs⟩ := p
    cases perm
    · exact absurd h (by simp [ChoiceProperty.update, ChoiceProperty.update_allowed])
    · by_cases hv : v ∈ cs
      · simp [ChoiceProperty.update, ChoiceProperty.update_allowed,
          ChoiceProperty.validate, hv]
      · exact absurd h (by
          simp [ChoiceProperty.update, ChoiceProperty.update_allowed,
            ChoiceProperty.validate, hv])

/-- Claim C6 witness: at the concrete ReadWrite plain property with value 0,
`update(1)` succeeds and a second `update(1)` reproduces the same result and
state. -/
theorem c6_update_idempotent_witness :
    (Property.update (Property.new (0 : Int) Permission.ReadWrite) 1).1 = Except.ok ()
    ∧ ((Property.update (Property.new (0 : Int) Permission.ReadWrite) 1).2).update 1
      = Property.update (Property.new (0 : Int) Permission.ReadWrite) 1 :=
  ⟨rfl, (c6_update_idempotent (T := Int)).1 (Property.new 0 Permission.ReadWrite) 1 rfl⟩

/-- Claim C7: a plain Property constructed with (value = 5, permission =
ReadOnly) serializes to the JSON string with the permission rendered as its
symbolic name, and a RangeProperty with (value = 5, ReadOnly, min = -1000,
max = 3000) additionally carries the nested range object — exactly the strings
asserted by the serialization tests of src/properties.rs. -/
theorem c7_serialization_strings :
    (Property.new (5 : Int) Permission.ReadOnly).toJson
      = "\x7b\"value\":5,\"permission\":\"ReadOnly\"\x7d"
    ∧ (RangeProperty.new (5 : Int) Permission.ReadOnly (-1000) 3000).toJson
      = "\x7b\"value\":5,\"permission\":\"ReadOnly\",\"range\":\x7b\"min\":-1000,\"max\":3000\x7d\x7d" :=
  ⟨rfl, rfl⟩

/-- Claim C8: for every variant, every call to `update` or `update_int` —
whether it succeeds or fails — modifies at most the value field: the
permission, the range bounds of a RangeProperty and the choices list of a
ChoiceProperty are unchanged by every operation after construction. -/
theorem c8_updates_frame_everything_but_value {T : Type} [DecidableEq T] :
    (∀ (p : Property T) (v : T),
      (p.update v).2.permission = p.permission
      ∧ (p.update_int v).2.permission = p.permission)
    ∧ (∀ (p : RangeProperty T) (v : T),
      (p.update v).2.permission = p.permission
      ∧ (p.update v).2.range = p.range
      ∧ (p.update_int v).2.permission = p.permission
      ∧ (p.update_int v).2.range = p.range)
    ∧ (∀ (p : ChoiceProperty T) (v : T),
      (p.update v).2.permission = p.permission
      ∧ (p.update v).2.choices = p.choices
      ∧ (p.update_int v).2.permission = p.permission
      ∧ (p.update_int v).2.choices = p.choices) := by
  refine ⟨fun p v => ?_, fun p v => ?_, fun p v => ?_⟩
  · obtain ⟨x, perm⟩ := p
    cases perm <;> exact ⟨rfl, rfl⟩
  · obtain ⟨x, perm, r⟩ := p
    cases perm <;> exact ⟨rfl, rfl, rfl, rfl⟩
  · obtain ⟨x, perm, cs⟩ := p
    cases perm <;> by_cases hv : v ∈ cs <;>
      simp [ChoiceProperty.update, ChoiceProperty.update_int,
        ChoiceProperty.update_allowed, ChoiceProperty.validate, hv]

/-- Claim C9: device construction is fallible and all-or-nothing. When the
serial port cannot be opened (unreachable or invalid address, i.e.
`openResult = none`), `CcdDevice.new` yields no device at all (`none`) — not
an error value and not a partially-initialized device; when the port opens,
it yields exactly one fully-populated device. -/
theorem c9_device_construction_all_or_nothing :
    (∀ (name address : String) (baud timeoutMs : Nat) (freshId : Uuid),
      CcdDevice.new name address baud timeoutMs freshId none = none)
    ∧ (∀ (name address : String) (baud timeoutMs : Nat) (freshId : Uuid)
        (port : NativePort),
      CcdDevice.new name address baud timeoutMs freshId (some port)
        = some (CcdDevice.mk freshId name [] address baud port)) :=
  ⟨fun _ _ _ _ _ => rfl, fun _ _ _ _ _ _ => rfl⟩

/-- Claim C10: on the internal sync path of a ChoiceProperty, when
`update_int(v)` fails with `InvalidValue` (v not in the choices list) the
property is left exactly unchanged — error atomicity holds on the sync path
as well. -/
theorem c10_choice_update_int_error_atomicity {T : Type} [DecidableEq T]
    (p : ChoiceProperty T) (v : T)
    (h : (p.update_int v).1 = Except.error PropertyError.InvalidValue) :
    (p.update_int v).2 = p := by
  obtain ⟨x, perm, cs⟩ := p
  by_cases hv : v ∈ cs
  · exact absurd h (by simp [ChoiceProperty.update_int, ChoiceProperty.validate, hv])
  · simp [ChoiceProperty.update_int, ChoiceProperty.validate, hv]

/-- Claim C10 witness: the concrete ReadWrite choice property over [0,1,2,3]
with value 0 rejects `update_int(100)` with `InvalidValue` and is unchanged. -/
theorem c10_choice_update_int_error_atomicity_witness :
    (ChoiceProperty.update_int
        (ChoiceProperty.new (0 : Int) Permission.ReadWrite [0, 1, 2, 3]) 100).1
      = Except.error PropertyError.InvalidValue
    ∧ (ChoiceProperty.update_int
        (ChoiceProperty.new (0 : Int) Permission.ReadWrite [0, 1, 2, 3]) 100).2
      = ChoiceProperty.new (0 : Int) Permission.ReadWrite [0, 1, 2, 3] :=
  ⟨rfl, c10_choice_update_int_error_atomicity
    (ChoiceProperty.new (0 : Int) Permission.ReadWrite [0, 1, 2, 3]) 100 rfl⟩

end Astro
